import Mathlib

/-!
Shallow embedding of the PayPal payment-provider adapter
(`src/unnamed/part_001`, `PaypalModuleService`) and of the relevant slice of
its processor client (`src/src/modules/paypal/types/paypal.ts`,
`PaypalService`).

Modelling conventions, used uniformly below:
* JavaScript objects whose fields may be absent are Lean structures with
  `Option` fields; an absent key is `none`.  An object spread
  `\x7b ...a, ...b \x7d` takes `b`'s field when it is `some`, else `a`'s.
* JS numbers are `Int`; `Number(x)` applied to a value that is already a
  number is the identity, and applied to an absent value it yields `NaN`,
  modelled as `none : Option Int`.  Monetary string values such as
  `amount.value` are modelled by the `Option Int` they parse to.
* JS truthiness on strings/numbers: `none`, `some ""` and `some 0` are falsy.
* Each processor interaction performed by an operation is recorded in a
  returned trace (`List ProcCall`); the processor's replies are passed in as
  explicit arguments, and `new Date().toISOString()` as a `now : String`
  argument.  A thrown exception is `Except.error`; a thrown-and-caught-and-
  replaced exception is modelled by the replacement error the caller sees.
* `client.createOrder` is modelled at its interface: a successful call
  returning the supplied `Order` (a failing call would reject the whole
  adapter operation, a path no claim depends on).
-/

/-- `processorResponse` metadata attached to a PayPal capture. -/
structure ProcessorResponse where
  avsCode : Option String := none
  cvvCode : Option String := none
  responseCode : Option String := none
deriving DecidableEq, Repr

/-- `PaypalPaymentError` from `src/unnamed/part_001`. -/
structure PaypalPaymentError where
  code : String
  message : String
  retryable : Bool
  avsCode : Option String := none
  cvvCode : Option String := none
deriving DecidableEq, Repr

/-- A capture's `amount` object: `value` (a numeric string, modelled by its
numeric content) and `currencyCode`. -/
structure CaptureAmount where
  value : Option Int := none
  currencyCode : Option String := none
deriving DecidableEq, Repr

/-- A PayPal capture as read by the adapter: `id`, `status`, `amount`,
`processorResponse`. -/
structure Capture where
  id : Option String := none
  status : Option String := none
  amount : Option CaptureAmount := none
  processorResponse : Option ProcessorResponse := none
deriving DecidableEq, Repr

/-- The `payments` object of a purchase unit. -/
structure Payments where
  captures : Option (List Capture) := none
deriving DecidableEq, Repr

/-- A purchase unit, of which the adapter only reads `payments.captures`. -/
structure PurchaseUnit where
  payments : Option Payments := none
deriving DecidableEq, Repr

/-- The opaque session-data bag round-tripped by the framework, restricted to
the keys the adapter reads or writes.  Processor orders (`id`, `status`,
`purchaseUnits`) are merged into it by spreads. -/
structure Bag where
  id : Option String := none
  status : Option String := none
  amount : Option Int := none
  currency_code : Option String := none
  purchaseUnits : Option (List PurchaseUnit) := none
  error : Option PaypalPaymentError := none
  captured_at : Option String := none
  cancelled_at : Option String := none
  order_id : Option String := none
  idempotency_key : Option String := none
deriving DecidableEq, Repr

/-- A processor `Order` as returned by `createOrder` / `captureOrder` /
`getOrder`: the fields the adapter reads. -/
structure Order where
  id : Option String := none
  status : Option String := none
  purchaseUnits : Option (List PurchaseUnit) := none
deriving DecidableEq, Repr

/-- Errors surfaced by adapter operations: `MedusaError(type, message)`, or
the `TypeError` raised by the unguarded `purchaseUnits?.[0].payments` chain,
or a plain `Error`. -/
inductive AdapterError where
  | medusa (type : String) (message : String)
  | jsTypeError
  | other (message : String)
deriving DecidableEq, Repr

/-- Argument record of a `client.createOrder` call: `amount` (`none` = NaN),
`currency` (`none` models the TS non-null assertion passing `undefined`),
`sessionId`.  `items`/`shipping_info`/`email` are forwarded unchanged by
every call site and are not modelled. -/
structure CreateOrderReq where
  amount : Option Int := none
  currency : Option String := none
  sessionId : Option String := none
deriving DecidableEq, Repr

/-- One outbound processor interaction, as recorded in an operation's trace. -/
inductive ProcCall where
  | captureOrder (orderId : String)
  | createOrder (req : CreateOrderReq)
  | refundCapturedPayment (captureId : String)
  | getOrder (orderId : String)
deriving DecidableEq, Repr

/-- JS truthiness of an optional string (`undefined` and `""` are falsy). -/
def truthyStr : Option String → Bool
  | none => false
  | some s => !(s == "")

/-- JS truthiness of an optional number (`undefined` and `0` are falsy). -/
def truthyNum : Option Int → Bool
  | none => false
  | some n => !(n == 0)

/-- JS `a || dflt` on an optional string: falsy (`undefined`/`""`) falls back. -/
def jsOrStr (a : Option String) (dflt : String) : String :=
  match a with
  | some v => if v = "" then dflt else v
  | none => dflt

/-- Spread override: `\x7b ...old, ...new \x7d` on one key. -/
def override (old new : Option α) : Option α :=
  match new with
  | some v => some v
  | none => old

/-- The framework's `PaymentSessionStatus` string constants used by the
adapter. -/
def PSS_AUTHORIZED : String := "authorized"
def PSS_CAPTURED : String := "captured"
def PSS_CANCELED : String := "canceled"
def PSS_PENDING : String := "pending"

/-- The five framework-recognized payment-session states of spec §4.1. -/
def frameworkStatuses : List String :=
  ["not_initiated", "pending", "authorized", "captured", "canceled"]

/-- Result of `checkPaymentStatus`: the (pass-through) capture status and an
optional decline descriptor. -/
structure CheckResult where
  status : String
  error : Option PaypalPaymentError := none
deriving DecidableEq, Repr

/-- The fixed `processorResponseMap` decline lookup table of
`checkPaymentStatus` (`src/unnamed/part_001`). -/
def processorResponseMap : List (String × PaypalPaymentError) :=
  [ ("0500",
     { code := "0500 - DO_NOT_HONOR",
       message := "Card refused by issuer. Please try again or use a different card.",
       retryable := false }),
    ("9500",
     { code := "9500 - SUSPECTED_FRAUD",
       message := "Suspected fraudulent card. Please try again and use a different card.",
       retryable := false }),
    ("5400",
     { code := "5400 - EXPIRED_CARD",
       message := "Card has expired. Please try again and use a different card.",
       retryable := false }),
    ("5120",
     { code := "5120 - INSUFFICIENT_FUNDS",
       message := "Insufficient funds. Please try again or use a different card.",
       retryable := true }),
    ("00N7",
     { code := "00N7 - CVV_FAILURE",
       message := "Incorrect security code. Please try again or use a different card.",
       retryable := true }),
    ("1330",
     { code := "1330 - INVALID_ACCOUNT",
       message := "Card not valid. Please try again or use a different card.",
       retryable := true }),
    ("5100",
     { code := "5100 - GENERIC_DECLINE",
       message := "Card is declined. Please try again or use a different card.",
       retryable := true }) ]

/-- The generic no-`responseCode` decline descriptor of `checkPaymentStatus`. -/
def declinedNoCodeError : PaypalPaymentError :=
  { code := "DECLINED",
    message := "Payment declined. Please try again or use a different card.",
    retryable := false }

/-- `checkPaymentStatus(status, processorResponse?)` of
`src/unnamed/part_001`: switch on the capture status; on `DECLINED` with a
truthy `responseCode`, look the code up in `processorResponseMap` (falling
back to a generic non-retryable entry keyed by the raw code) and merge in the
AVS/CVV codes; on `DECLINED` otherwise, a fixed generic descriptor; on any
other status, an `UNKNOWN_STATUS` descriptor embedding the raw status. -/
def checkPaymentStatus (status : String) (processorResponse : Option ProcessorResponse) :
    CheckResult :=
  if status = "COMPLETED" then
    { status }
  else if status = "DECLINED" then
    match processorResponse with
    | some pr =>
      match pr.responseCode with
      | some rc =>
        if rc = "" then
          { status, error := some declinedNoCodeError }
        else
          let errorDetails :=
            ((processorResponseMap.find? (fun p => p.1 = rc)).map Prod.snd).getD
              { code := rc,
                message := "Payment declined. Please try again or use a different card.",
                retryable := false }
          { status,
            error := some { errorDetails with avsCode := pr.avsCode, cvvCode := pr.cvvCode } }
      | none => { status, error := some declinedNoCodeError }
    | none => { status, error := some declinedNoCodeError }
  else
    { status,
      error := some
        { code := "UNKNOWN_STATUS",
          message := "Unknown payment status: " ++ status ++ ". Please try again or use a different card.",
          retryable := false } }

/-- Shape of the JSON-parsed capture-error body, of which `authorizePayment`
reads `purchase_units?.[0]?.payments?.captures?.[0]`. -/
structure ErrorBody where
  purchase_units : Option (List PurchaseUnit) := none
deriving DecidableEq, Repr

/-- Outcome of the one `client.captureOrder(orderId)` call `authorizePayment`
may make: either the promise resolves with the captured `Order`, or it
rejects and its `err.body` JSON-parses to `errBody` (an absent/empty body
parses to `\x7b\x7d`, i.e. `errBody` with no `purchase_units`). -/
inductive CaptureOutcome where
  | success (order : Order)
  | failure (errBody : ErrorBody)
deriving DecidableEq, Repr

/-- The adapter's one-step processor stub for `authorizePayment`: the outcome
of the `captureOrder` call and the order a (successful) `createOrder` call
returns. -/
structure AuthProcessor where
  captureResult : CaptureOutcome
  createdOrder : Order
deriving DecidableEq, Repr

/-- `authorizePayment`'s input: the session-data bag and
`input.context?.idempotency_key`. -/
structure AuthorizeInput where
  data : Option Bag := none
  idempotency_key : Option String := none
deriving DecidableEq, Repr

/-- `AuthorizePaymentOutput`: the top-level session status and the returned
session data. -/
structure AuthorizeOutput where
  status : String
  data : Bag
deriving DecidableEq, Repr

/-- The chain `purchaseUnits?.[0].payments?.captures?.[0]` (lines 140 and 190
of `src/unnamed/part_001`): optional chaining guards a missing
`purchaseUnits`, but `[0].payments` on an empty array throws a `TypeError`;
from the first purchase unit on, every access is guarded. -/
def firstCaptureChain : Option (List PurchaseUnit) → Except AdapterError (Option Capture)
  | none => .ok none
  | some [] => .error .jsTypeError
  | some (pu :: _) => .ok ((pu.payments.bind Payments.captures).bind List.head?)

/-- `\x7b ...data, ...newOrder, error \x7d`: merge a processor order into the
session bag, then set `error` explicitly (an explicit key overrides the
spreads even when its value is `undefined`). -/
def mergeOrderErr (b : Bag) (o : Order) (e : Option PaypalPaymentError) : Bag :=
  { b with
    id := override b.id o.id
    status := override b.status o.status
    purchaseUnits := override b.purchaseUnits o.purchaseUnits
    error := e }

/-- `\x7b ...paypalData \x7d` where `paypalData` is the captured `Order`: the
returned bag holds only the order's fields. -/
def bagOfOrder (o : Order) : Bag :=
  { id := o.id, status := o.status, purchaseUnits := o.purchaseUnits }

/-- The synthesized descriptor of the no-embedded-capture-detail path of the
capture-failure branch. -/
def genericRetryableError : PaypalPaymentError :=
  { code := "404",
    message := "Payment declined. Please try again or use a different card.",
    retryable := true }

/-- The capture embedded in a parsed capture-error body:
`body?.purchase_units?.[0]?.payments?.captures?.[0]`. -/
def errBodyCapture (eb : ErrorBody) : Option Capture :=
  (((eb.purchase_units.bind List.head?).bind PurchaseUnit.payments).bind
    Payments.captures).bind List.head?

/-- Capture-failure branch of `authorizePayment` (lines 144–188): extract
`captureData` from the parsed error body, create a replacement order for the
session's amount/currency/idempotency key, and return `PENDING`; the attached
`error` is the synthesized generic retryable descriptor when no capture
detail is embedded, otherwise `checkPaymentStatus`'s output for the embedded
capture's status (`|| DECLINED` on a falsy status). -/
def authorizeCaptureFailure (d : Bag) (ik : Option String) (newOrder : Order)
    (errBody : ErrorBody) (oid : String) : AuthorizeOutput × List ProcCall :=
  let req : CreateOrderReq := { amount := d.amount, currency := d.currency_code, sessionId := ik }
  let calls := [ProcCall.captureOrder oid, ProcCall.createOrder req]
  match errBodyCapture errBody with
  | none =>
    (⟨PSS_PENDING, mergeOrderErr d newOrder (some genericRetryableError)⟩, calls)
  | some cd =>
    let paymentStatus := jsOrStr cd.status "DECLINED"
    let res := checkPaymentStatus paymentStatus cd.processorResponse
    (⟨PSS_PENDING, mergeOrderErr d newOrder res.error⟩, calls)

/-- Capture-success branch of `authorizePayment` (lines 189–224): classify
the captured order's first capture; on classified `DECLINED`, create a
replacement order whose amount/currency come from the capture's own `amount`
object (`Number(captureData?.amount?.value)`,
`captureData?.amount?.currencyCode!`) and return `PENDING`; otherwise fall
through to `AUTHORIZED` with the captured order as the whole session data. -/
def authorizeCaptureSuccess (d : Bag) (ik : Option String) (newOrder : Order)
    (order : Order) (oid : String) : Except AdapterError (AuthorizeOutput × List ProcCall) :=
  match firstCaptureChain order.purchaseUnits with
  | .error e => .error e
  | .ok captureData =>
    let paymentStatus := jsOrStr (captureData.bind Capture.status) "DECLINED"
    let res := checkPaymentStatus paymentStatus (captureData.bind Capture.processorResponse)
    if res.status = "DECLINED" then
      let req : CreateOrderReq :=
        { amount := (captureData.bind Capture.amount).bind CaptureAmount.value,
          currency := (captureData.bind Capture.amount).bind CaptureAmount.currencyCode,
          sessionId := ik }
      .ok (⟨PSS_PENDING, mergeOrderErr d newOrder res.error⟩,
           [ProcCall.captureOrder oid, ProcCall.createOrder req])
    else
      .ok (⟨PSS_AUTHORIZED, bagOfOrder order⟩, [ProcCall.captureOrder oid])

/-- `authorizePayment` of `src/unnamed/part_001` (lines 119–225): validate
the session data, short-circuit to `AUTHORIZED` when the session's first
capture already reports `COMPLETED`, otherwise capture the order and dispatch
on the outcome. -/
def authorizePayment (proc : AuthProcessor) (input : AuthorizeInput) :
    Except AdapterError (AuthorizeOutput × List ProcCall) :=
  match input.data with
  | none => .error (.medusa "invalid_data" "Payment data is required")
  | some d =>
    if !truthyStr d.id || !truthyNum d.amount || !truthyStr d.currency_code then
      .error (.medusa "invalid_data"
        "PayPal order ID, Amount or Currency is missing, can not capture order.")
    else
      let oid := d.id.getD ""
      match firstCaptureChain d.purchaseUnits with
      | .error e => .error e
      | .ok cap0 =>
        let isAuthorized := cap0.bind Capture.status = some "COMPLETED"
        if isAuthorized then
          .ok (⟨PSS_AUTHORIZED, d⟩, [])
        else
          match proc.captureResult with
          | .failure errBody =>
            .ok (authorizeCaptureFailure d input.idempotency_key proc.createdOrder errBody oid)
          | .success order =>
            authorizeCaptureSuccess d input.idempotency_key proc.createdOrder order oid

/-- Outcome of the one `client.captureOrder` call `capturePayment` may make
(its result value is unused by the adapter). -/
inductive CaptureCallOutcome where
  | succeeds
  | fails
deriving DecidableEq, Repr

/-- `capturePayment` of `src/unnamed/part_001` (lines 81–117): validate, then
if the session already reports `captured`/`COMPLETED` return success without
a processor call; otherwise call `captureOrder`.  Every failure inside the
`try` is caught and replaced by a generic invalid-data error. -/
def capturePayment (captureCall : CaptureCallOutcome) (now : String) (input : Option Bag) :
    Except AdapterError (Bag × List ProcCall) :=
  match input with
  | none => .error (.medusa "invalid_data" "Failed to capture PayPal payment")
  | some d =>
    if !truthyStr d.id then
      .error (.medusa "invalid_data" "Failed to capture PayPal payment")
    else if d.status = some PSS_CAPTURED ∨ d.status = some "COMPLETED" then
      .ok ({ d with status := some PSS_CAPTURED, captured_at := some now }, [])
    else
      match captureCall with
      | .succeeds =>
        .ok ({ d with status := some PSS_CAPTURED, captured_at := some now },
             [ProcCall.captureOrder (d.id.getD "")])
      | .fails => .error (.medusa "invalid_data" "Failed to capture PayPal payment")

/-- `cancelPayment` of `src/unnamed/part_001` (lines 227–263): a pure local
transition; returns a fresh `\x7border_id, status: CANCELED, cancelled_at\x7d`
bag; every thrown error is caught and replaced by a generic one. -/
def cancelPayment (now : String) (input : Option Bag) : Except AdapterError Bag :=
  match input with
  | none => .error (.medusa "invalid_data" "Failed to cancel PayPal payment")
  | some d =>
    if !truthyStr d.id then
      .error (.medusa "invalid_data" "Failed to cancel PayPal payment")
    else
      .ok { order_id := d.id, status := some PSS_CANCELED, cancelled_at := some now }

/-- `deletePayment` of `src/unnamed/part_001` (lines 323–355): identical
local transition to `cancelPayment`, but its `catch` rethrows the original
error. -/
def deletePayment (now : String) (input : Option Bag) : Except AdapterError Bag :=
  match input with
  | none => .error (.medusa "invalid_data" "Payment data is required")
  | some d =>
    if !truthyStr d.id then
      .error (.medusa "invalid_data"
        "Delete payment failed! PayPal order ID and capture ID is required to cancel payment")
    else
      .ok { order_id := d.id, status := some PSS_CANCELED, cancelled_at := some now }

/-- The capture ids derived by `refundPayment`:
`purchaseUnits.flatMap(item => item?.payments?.captures?.map(c => c.id)).filter(id => id !== undefined)`
(a purchase unit without `payments`/`captures` contributes an `undefined`
element to the flatMap, which the filter removes, as do captures without an
id). -/
def captureIdsOf (pus : List PurchaseUnit) : List String :=
  pus.flatMap fun pu =>
    ((pu.payments.bind Payments.captures).getD []).filterMap Capture.id

/-- `refundPayment` of `src/unnamed/part_001` (lines 287–321) together with
`PaypalService.refundPayment` of
`src/src/modules/paypal/types/paypal.ts` (one `refundCapturedPayment`
processor call per derived capture id, in list order).  The source guard is
`if (!orderId || !captureIds)`; `captureIds` is always an array and an array
is always truthy in JS, so only the `orderId` test can fire.  Every thrown
error is caught and replaced by a generic one. -/
def refundPayment (now : String) (input : Option Bag) :
    Except AdapterError (Bag × List ProcCall) :=
  match input with
  | none => .error (.medusa "invalid_data" "Failed to refund PayPal payment")
  | some d =>
    let captureIds := captureIdsOf (d.purchaseUnits.getD [])
    if !truthyStr d.id then
      .error (.medusa "invalid_data" "Failed to refund PayPal payment")
    else
      .ok ({ order_id := d.id, status := some PSS_CANCELED, cancelled_at := some now },
           captureIds.map ProcCall.refundCapturedPayment)

/-- `initiatePayment`'s input: `amount`, `currency_code`,
`context?.idempotency_key`, and the presence of the custom `data` bag (whose
modelled content is only forwarded to the processor). -/
structure InitiateInput where
  data : Option Unit := some ()
  amount : Option Int := none
  currency_code : Option String := none
  idempotency_key : Option String := none
deriving DecidableEq, Repr

/-- `InitiatePaymentOutput`: the merged session data and `order.id!`. -/
structure InitiateOutput where
  data : Bag
  id : Option String
deriving DecidableEq, Repr

/-- `initiatePayment` of `src/unnamed/part_001` (lines 265–295): validate,
create a processor order for the session's amount/currency/idempotency key,
and return `\x7b ...data, ...order, ...context, amount, currency_code \x7d`
with `id = order.id`.  Errors propagate unchanged. -/
def initiatePayment (createdOrder : Order) (input : InitiateInput) :
    Except AdapterError (InitiateOutput × List ProcCall) :=
  match input.data with
  | none => .error (.medusa "invalid_data" "Payment data is required")
  | some _ =>
    if !truthyNum input.amount || !truthyStr input.currency_code then
      .error (.medusa "invalid_data" "Amount and currency code are required")
    else
      let req : CreateOrderReq :=
        { amount := input.amount, currency := input.currency_code,
          sessionId := input.idempotency_key }
      .ok ({ data :=
               { id := createdOrder.id,
                 status := createdOrder.status,
                 purchaseUnits := createdOrder.purchaseUnits,
                 idempotency_key := input.idempotency_key,
                 amount := input.amount,
                 currency_code := input.currency_code },
             id := createdOrder.id },
           [ProcCall.createOrder req])

/-- `getPaymentStatus` of `src/unnamed/part_001` (lines 357–383): validate,
retrieve the live order, fail with not-found when it has no (truthy) status,
else map `COMPLETED → CAPTURED` and anything else to `AUTHORIZED`. -/
def getPaymentStatus (retrieved : Order) (input : Option Bag) :
    Except AdapterError (String × List ProcCall) :=
  match input with
  | none => .error (.medusa "invalid_data" "Payment data is required")
  | some d =>
    if !truthyStr d.id then
      .error (.medusa "invalid_data" "PayPal order ID is required to cancel payment")
    else if !truthyStr retrieved.status then
      .error (.medusa "not_found"
        ("PayPal order with ID " ++ d.id.getD "" ++ " not found"))
    else
      .ok ((if retrieved.status = some "COMPLETED" then PSS_CAPTURED else PSS_AUTHORIZED),
           [ProcCall.getOrder (d.id.getD "")])

/-- The webhook event resource (`WebhookPayload["data"]["resource"]` of
`src/src/providers/paypal/paypal-core.ts` types): `amount_value` models
`Number(resource.amount.value)`, the numeric parse of the amount string. -/
structure WebhookResource where
  id : String := ""
  status : String := ""
  amount_value : Int := 0
  custom_id : String := ""
deriving DecidableEq, Repr

/-- The webhook payload's `data` field: event type tag and resource. -/
structure WebhookData where
  event_type : String
  resource : WebhookResource
deriving DecidableEq, Repr

/-- The three webhook actions the translator emits. -/
inductive WebhookAction where
  | captured
  | not_supported
  | failed
deriving DecidableEq, Repr

/-- The session-update payload of a webhook action. -/
structure WebhookActionData where
  session_id : String
  amount : Int
deriving DecidableEq, Repr

/-- `WebhookActionResult` as built by the translator. -/
structure WebhookActionResult where
  action : WebhookAction
  data : Option WebhookActionData := none
deriving DecidableEq, Repr

/-- Outcome of `client.verifyWebhook`: either it returns (signature
verified), or it throws (transport failure, unconfigured webhook id, or
non-`SUCCESS` verification status — all of which reject the promise). -/
inductive VerifyOutcome where
  | verified
  | unverifiable
deriving DecidableEq, Repr

/-- `getWebhookActionAndData` of `src/unnamed/part_001` (lines 396–425):
verify the signature, then dispatch on the event type; any thrown error is
caught and downgraded to a `failed` action carrying the resource's
correlation id and parsed amount. -/
def getWebhookActionAndData (verify : VerifyOutcome) (payload : WebhookData) :
    WebhookActionResult :=
  match verify with
  | .unverifiable =>
    { action := .failed,
      data := some { session_id := payload.resource.custom_id,
                     amount := payload.resource.amount_value } }
  | .verified =>
    if payload.event_type = "PAYMENT.CAPTURE.COMPLETED" then
      { action := .captured,
        data := some { session_id := payload.resource.custom_id,
                       amount := payload.resource.amount_value } }
    else
      { action := .not_supported }

/-- The `error` value the capture-failure branch attaches: the synthesized
generic retryable descriptor when the error body embeds no capture, else the
classifier's output for the embedded capture's status. -/
def failureDescriptor (eb : ErrorBody) : Option PaypalPaymentError :=
  match errBodyCapture eb with
  | none => some genericRetryableError
  | some cd => (checkPaymentStatus (jsOrStr cd.status "DECLINED") cd.processorResponse).error

theorem checkPaymentStatus_status (s : String) (pr : Option ProcessorResponse) :
    (checkPaymentStatus s pr).status = s := by
  unfold checkPaymentStatus
  split
  · rfl
  · split
    · rcases pr with _ | pr
      · rfl
      · rcases hrc : pr.responseCode with _ | rc
        · simp [hrc]
        · simp only [hrc]
          split <;> rfl
    · rfl

theorem checkPaymentStatus_declined_error (pr : Option ProcessorResponse) :
    (checkPaymentStatus "DECLINED" pr).error ≠ none := by
  unfold checkPaymentStatus
  rw [if_neg (by decide : ¬("DECLINED" = "COMPLETED")), if_pos rfl]
  rcases pr with _ | ⟨avs, cvv, rc⟩
  · simp
  · rcases rc with _ | rc
    · simp
    · simp only
      split <;> simp

theorem authorizeCaptureFailure_eq (d : Bag) (ik : Option String) (newOrder : Order)
    (eb : ErrorBody) (oid : String) :
    authorizeCaptureFailure d ik newOrder eb oid =
      (⟨PSS_PENDING, mergeOrderErr d newOrder (failureDescriptor eb)⟩,
       [ProcCall.captureOrder oid,
        ProcCall.createOrder { amount := d.amount, currency := d.currency_code, sessionId := ik }]) := by
  unfold authorizeCaptureFailure failureDescriptor
  cases hc : errBodyCapture eb <;> simp [hc]

/-- C5: classifying a `DECLINED` capture whose processor response code is one
of the seven entries of the fixed lookup table returns exactly that table
entry's code, message and retryable flag, merged with the AVS and CVV codes
taken from the processor response. -/
theorem classifier_table_hit (rc : String) (e : PaypalPaymentError) (avs cvv : Option String)
    (hmem : (rc, e) ∈ processorResponseMap) :
    checkPaymentStatus "DECLINED" (some { avsCode := avs, cvvCode := cvv, responseCode := some rc }) =
      { status := "DECLINED",
        error := some { code := e.code, message := e.message, retryable := e.retryable,
                        avsCode := avs, cvvCode := cvv } } := by
  fin_cases hmem <;> rfl

/-- Witness for C5: the insufficient-funds entry `5120`, with AVS code `Y`
and CVV code `M` merged in. -/
theorem classifier_table_hit_witness :
    checkPaymentStatus "DECLINED"
        (some { avsCode := some "Y", cvvCode := some "M", responseCode := some "5120" }) =
      { status := "DECLINED",
        error := some { code := "5120 - INSUFFICIENT_FUNDS",
                        message := "Insufficient funds. Please try again or use a different card.",
                        retryable := true, avsCode := some "Y", cvvCode := some "M" } } :=
  classifier_table_hit "5120"
    { code := "5120 - INSUFFICIENT_FUNDS",
      message := "Insufficient funds. Please try again or use a different card.",
      retryable := true }
    (some "Y") (some "M") (by decide)

/-- C6 counterexample: for the unknown decline code `XXXX` the classifier
returns the fixed generic message, which does not contain the original
response code (the code lands in the descriptor's `code` field instead). -/
theorem classifier_unknown_code_cex :
    checkPaymentStatus "DECLINED"
        (some { avsCode := none, cvvCode := none, responseCode := some "XXXX" }) =
      { status := "DECLINED",
        error := some { code := "XXXX",
                        message := "Payment declined. Please try again or use a different card.",
                        retryable := false, avsCode := none, cvvCode := none } } ∧
    ¬ ("XXXX".toList <:+:
        "Payment declined. Please try again or use a different card.".toList) :=
  ⟨rfl, by decide⟩

/-- C6 amended: for every nonempty decline response code absent from the
lookup table, the classifier returns a non-retryable descriptor whose `code`
field is the original response code and whose message is the fixed generic
decline message, merged with the AVS/CVV codes from the response. -/
theorem classifier_table_miss (rc : String) (avs cvv : Option String)
    (hne : rc ≠ "")
    (habs : ∀ p ∈ processorResponseMap, p.1 ≠ rc) :
    checkPaymentStatus "DECLINED" (some { avsCode := avs, cvvCode := cvv, responseCode := some rc }) =
      { status := "DECLINED",
        error := some { code := rc,
                        message := "Payment declined. Please try again or use a different card.",
                        retryable := false, avsCode := avs, cvvCode := cvv } } := by
  have hfind : processorResponseMap.find? (fun p => p.1 = rc) = none := by
    rw [List.find?_eq_none]
    intro x hx
    simpa using habs x hx
  unfold checkPaymentStatus
  rw [if_neg (by decide : ¬("DECLINED" = "COMPLETED")), if_pos rfl]
  simp [hfind, hne]

/-- Witness for C6's amended theorem at the unknown code `XXXX`. -/
theorem classifier_table_miss_witness :
    checkPaymentStatus "DECLINED"
        (some { avsCode := some "N", cvvCode := some "P", responseCode := some "XXXX" }) =
      { status := "DECLINED",
        error := some { code := "XXXX",
                        message := "Payment declined. Please try again or use a different card.",
                        retryable := false, avsCode := some "N", cvvCode := some "P" } } :=
  classifier_table_miss "XXXX" (some "N") (some "P") (by decide) (by decide)

/-- C8: on a verified `PAYMENT.CAPTURE.COMPLETED` event the webhook
translator returns action `captured` with `session_id` the resource's
correlation (`custom_id`) and `amount` the numeric parse of the resource
amount value; on a payload whose signature verification fails it returns
action `failed` with the same fields. -/
theorem webhook_completed_and_failed (p : WebhookData)
    (h : p.event_type = "PAYMENT.CAPTURE.COMPLETED") :
    getWebhookActionAndData .verified p =
      { action := .captured,
        data := some { session_id := p.resource.custom_id,
                       amount := p.resource.amount_value } } ∧
    getWebhookActionAndData .unverifiable p =
      { action := .failed,
        data := some { session_id := p.resource.custom_id,
                       amount := p.resource.amount_value } } := by
  refine ⟨?_, rfl⟩
  unfold getWebhookActionAndData
  rw [if_pos h]

/-- Witness for C8 at a concrete completed-capture event. -/
theorem webhook_completed_and_failed_witness :
    getWebhookActionAndData .verified
        { event_type := "PAYMENT.CAPTURE.COMPLETED",
          resource := { id := "C1", status := "COMPLETED", amount_value := 50, custom_id := "sess_1" } } =
      { action := .captured, data := some { session_id := "sess_1", amount := 50 } } ∧
    getWebhookActionAndData .unverifiable
        { event_type := "PAYMENT.CAPTURE.COMPLETED",
          resource := { id := "C1", status := "COMPLETED", amount_value := 50, custom_id := "sess_1" } } =
      { action := .failed, data := some { session_id := "sess_1", amount := 50 } } :=
  webhook_completed_and_failed
    { event_type := "PAYMENT.CAPTURE.COMPLETED",
      resource := { id := "C1", status := "COMPLETED", amount_value := 50, custom_id := "sess_1" } }
    rfl

/-- C4 (code-bug evidence): a session whose purchase units yield zero capture
ids does not make `refundPayment` fail — the JS guard `!captureIds` tests an
array, which is always truthy, so the operation succeeds with status
`CANCELED` while issuing zero processor refund calls. -/
theorem refund_zero_capture_ids_succeeds :
    refundPayment "t0" (some { id := some "order_1", purchaseUnits := some [] }) =
      .ok ({ order_id := some "order_1", status := some PSS_CANCELED, cancelled_at := some "t0" },
           []) :=
  rfl

/-- C7: a session already reporting `captured`/`COMPLETED` makes
`capturePayment` return status `CAPTURED` with a capture timestamp and zero
processor calls, and running `capturePayment` again on its own output again
returns `CAPTURED` with zero processor calls, under any processor outcome. -/
theorem capture_idempotent (cc cc2 : CaptureCallOutcome) (now now2 : String) (d : Bag)
    (hid : truthyStr d.id = true)
    (hst : d.status = some PSS_CAPTURED ∨ d.status = some "COMPLETED") :
    capturePayment cc now (some d) =
      .ok ({ d with status := some PSS_CAPTURED, captured_at := some now }, []) ∧
    capturePayment cc2 now2 (some { d with status := some PSS_CAPTURED, captured_at := some now }) =
      .ok ({ d with status := some PSS_CAPTURED, captured_at := some now2 }, []) := by
  constructor
  · rcases hst with h | h <;> simp [capturePayment, hid, h, PSS_CAPTURED]
  · simp [capturePayment, hid, PSS_CAPTURED]

/-- Witness for C7 at a concrete already-captured session. -/
theorem capture_idempotent_witness :
    capturePayment .fails "t1" (some { id := some "O1", status := some PSS_CAPTURED }) =
      .ok ({ id := some "O1", status := some PSS_CAPTURED, captured_at := some "t1" }, []) ∧
    capturePayment .fails "t2"
        (some { id := some "O1", status := some PSS_CAPTURED, captured_at := some "t1" }) =
      .ok ({ id := some "O1", status := some PSS_CAPTURED, captured_at := some "t2" }, []) :=
  capture_idempotent .fails .fails "t1" "t2" { id := some "O1", status := some PSS_CAPTURED }
    (by decide) (Or.inl rfl)

/-- C10: when the session data is present but `amount` is the number `0` or
`currency_code` is the empty string (both JS-falsy), `authorizePayment`
throws an invalid-data error — for every processor behavior, i.e. before any
processor call. -/
theorem authorize_rejects_falsy_amount_or_currency (proc : AuthProcessor)
    (input : AuthorizeInput) (d : Bag)
    (hd : input.data = some d)
    (h : d.amount = some 0 ∨ d.currency_code = some "") :
    authorizePayment proc input =
      .error (.medusa "invalid_data"
        "PayPal order ID, Amount or Currency is missing, can not capture order.") := by
  rcases h with h | h <;> simp [authorizePayment, hd, h, truthyNum, truthyStr]

/-- Witness for C10: order id set, amount `0`. -/
theorem authorize_rejects_falsy_amount_or_currency_witness :
    authorizePayment ⟨.success {}, {}⟩
        ⟨some { id := some "O1", amount := some 0, currency_code := some "USD" }, none⟩ =
      .error (.medusa "invalid_data"
        "PayPal order ID, Amount or Currency is missing, can not capture order.") :=
  authorize_rejects_falsy_amount_or_currency ⟨.success {}, {}⟩
    ⟨some { id := some "O1", amount := some 0, currency_code := some "USD" }, none⟩
    { id := some "O1", amount := some 0, currency_code := some "USD" }
    rfl (Or.inl rfl)

/-- C3: when the session's first purchase unit's first capture already
reports `COMPLETED`, `authorizePayment` returns `AUTHORIZED` with the
session's own data and an empty processor trace — no capture call and no
replacement order — for every processor behavior. -/
theorem authorize_skips_capture_when_completed (proc : AuthProcessor)
    (input : AuthorizeInput) (d : Bag) (pu : PurchaseUnit) (rest : List PurchaseUnit)
    (hd : input.data = some d)
    (hid : truthyStr d.id = true)
    (ham : truthyNum d.amount = true)
    (hcur : truthyStr d.currency_code = true)
    (hpu : d.purchaseUnits = some (pu :: rest))
    (hcomp : ((pu.payments.bind Payments.captures).bind List.head?).bind Capture.status =
      some "COMPLETED") :
    authorizePayment proc input = .ok (⟨PSS_AUTHORIZED, d⟩, []) := by
  simp [authorizePayment, hd, hid, ham, hcur, hpu, firstCaptureChain, hcomp]

/-- Witness for C3 at a session holding a completed capture. -/
theorem authorize_skips_capture_when_completed_witness :
    authorizePayment ⟨.success {}, {}⟩
        ⟨some { id := some "O1", amount := some 50, currency_code := some "USD",
                purchaseUnits := some
                  [{ payments := some { captures := some [{ status := some "COMPLETED" }] } }] },
          none⟩ =
      .ok (⟨PSS_AUTHORIZED,
            { id := some "O1", amount := some 50, currency_code := some "USD",
              purchaseUnits := some
                [{ payments := some { captures := some [{ status := some "COMPLETED" }] } }] }⟩,
           []) :=
  authorize_skips_capture_when_completed ⟨.success {}, {}⟩ _ _
    { payments := some { captures := some [{ status := some "COMPLETED" }] } } []
    rfl (by decide) (by decide) (by decide) rfl rfl

theorem authorizeCaptureSuccess_status (d : Bag) (ik : Option String) (newOrder : Order)
    (order : Order) (oid : String) (out : AuthorizeOutput) (calls : List ProcCall)
    (h : authorizeCaptureSuccess d ik newOrder order oid = .ok (out, calls)) :
    out.status = PSS_PENDING ∨ out.status = PSS_AUTHORIZED := by
  simp only [authorizeCaptureSuccess] at h
  split at h
  · simp at h
  · split at h
    · simp only [Except.ok.injEq, Prod.mk.injEq] at h
      exact Or.inl (by rw [← h.1])
    · simp only [Except.ok.injEq, Prod.mk.injEq] at h
      exact Or.inr (by rw [← h.1])

/-- C9 counterexample: `initiatePayment` merges the created processor order
into the session data, so the returned data's `status` field is the
processor's own order status `CREATED`, which is not one of the five
framework-recognized payment-session states. -/
theorem initiate_emits_processor_status_cex :
    initiatePayment { id := some "O1", status := some "CREATED" }
        { data := some (), amount := some 50, currency_code := some "usd",
          idempotency_key := some "sess_1" } =
      .ok ({ data := { id := some "O1", status := some "CREATED", amount := some 50,
                       currency_code := some "usd", idempotency_key := some "sess_1" },
             id := some "O1" },
           [ProcCall.createOrder { amount := some 50, currency := some "usd",
                                   sessionId := some "sess_1" }]) ∧
    "CREATED" ∉ frameworkStatuses :=
  ⟨rfl, by decide⟩

/-- C9 amended: the statuses the adapter itself emits — the top-level status
of `authorizePayment` and `getPaymentStatus`, and the `status` field that
`capturePayment`, `cancelPayment`, `deletePayment` and `refundPayment` write
into the session data — are always framework-recognized states; but
`initiatePayment` (like the order-merging branches of `authorizePayment`)
copies the processor order's own status string into the session data's
`status` field, so that field is not restricted to the five framework
states. -/
theorem adapter_status_vocabulary :
    (∀ (proc : AuthProcessor) (input : AuthorizeInput) (out : AuthorizeOutput)
        (calls : List ProcCall),
        authorizePayment proc input = .ok (out, calls) →
        out.status = PSS_PENDING ∨ out.status = PSS_AUTHORIZED) ∧
    (∀ (cc : CaptureCallOutcome) (now : String) (input : Option Bag) (out : Bag)
        (calls : List ProcCall),
        capturePayment cc now input = .ok (out, calls) → out.status = some PSS_CAPTURED) ∧
    (∀ (now : String) (input : Option Bag) (out : Bag),
        cancelPayment now input = .ok out → out.status = some PSS_CANCELED) ∧
    (∀ (now : String) (input : Option Bag) (out : Bag),
        deletePayment now input = .ok out → out.status = some PSS_CANCELED) ∧
    (∀ (now : String) (input : Option Bag) (out : Bag) (calls : List ProcCall),
        refundPayment now input = .ok (out, calls) → out.status = some PSS_CANCELED) ∧
    (∀ (ord : Order) (input : Option Bag) (st : String) (calls : List ProcCall),
        getPaymentStatus ord input = .ok (st, calls) → st = PSS_CAPTURED ∨ st = PSS_AUTHORIZED) ∧
    (∀ (ord : Order) (input : InitiateInput) (out : InitiateOutput) (calls : List ProcCall),
        initiatePayment ord input = .ok (out, calls) → out.data.status = ord.status) ∧
    (PSS_PENDING ∈ frameworkStatuses ∧ PSS_AUTHORIZED ∈ frameworkStatuses ∧
     PSS_CAPTURED ∈ frameworkStatuses ∧ PSS_CANCELED ∈ frameworkStatuses) := by
  refine ⟨?_, ?_, ?_, ?_, ?_, ?_, ?_, by decide⟩
  · intro proc input out calls h
    simp only [authorizePayment] at h
    split at h
    · simp at h
    · split at h
      · simp at h
      · split at h
        · simp at h
        · split at h
          · simp only [Except.ok.injEq, Prod.mk.injEq] at h
            exact Or.inr (by rw [← h.1])
          · split at h
            · simp only [Except.ok.injEq] at h
              rw [authorizeCaptureFailure_eq] at h
              simp only [Prod.mk.injEq] at h
              exact Or.inl (by rw [← h.1])
            · exact authorizeCaptureSuccess_status _ _ _ _ _ _ _ h
  · intro cc now input out calls h
    simp only [capturePayment] at h
    split at h
    · simp at h
    · split at h
      · simp at h
      · split at h
        · simp only [Except.ok.injEq, Prod.mk.injEq] at h
          rw [← h.1]
        · split at h
          · simp only [Except.ok.injEq, Prod.mk.injEq] at h
            rw [← h.1]
          · simp at h
  · intro now input out h
    simp only [cancelPayment] at h
    split at h
    · simp at h
    · split at h
      · simp at h
      · simp only [Except.ok.injEq] at h
        rw [← h]
  · intro now input out h
    simp only [deletePayment] at h
    split at h
    · simp at h
    · split at h
      · simp at h
      · simp only [Except.ok.injEq] at h
        rw [← h]
  · intro now input out calls h
    simp only [refundPayment] at h
    split at h
    · simp at h
    · split at h
      · simp at h
      · simp only [Except.ok.injEq, Prod.mk.injEq] at h
        rw [← h.1]
  · intro ord input st calls h
    simp only [getPaymentStatus] at h
    split at h
    · simp at h
    · split at h
      · simp at h
      · split at h
        · simp at h
        · split at h
          · simp only [Except.ok.injEq, Prod.mk.injEq] at h
            exact Or.inl h.1.symm
          · simp only [Except.ok.injEq, Prod.mk.injEq] at h
            exact Or.inr h.1.symm
  · intro ord input out calls h
    simp only [initiatePayment] at h
    split at h
    · simp at h
    · split at h
      · simp at h
      · simp only [Except.ok.injEq, Prod.mk.injEq] at h
        rw [← h.1]

/-- Witness for C9's amended theorem: concrete runs of cancel, capture,
refund and initiate. -/
theorem adapter_status_vocabulary_witness :
    ({ order_id := some "O1", status := some PSS_CANCELED, cancelled_at := some "t0" } : Bag).status =
      some PSS_CANCELED ∧
    ({ id := some "O1", status := some PSS_CAPTURED, captured_at := some "t1" } : Bag).status =
      some PSS_CAPTURED ∧
    ({ data := { id := some "O9", status := some "CREATED", amount := some 7,
                 currency_code := some "eur" },
       id := some "O9" } : InitiateOutput).data.status = some "CREATED" :=
  ⟨adapter_status_vocabulary.2.2.1 "t0" (some { id := some "O1" }) _ rfl,
   adapter_status_vocabulary.2.1 .succeeds "t1" (some { id := some "O1" }) _ _ rfl,
   adapter_status_vocabulary.2.2.2.2.2.2.1 { id := some "O9", status := some "CREATED" }
     { data := some (), amount := some 7, currency_code := some "eur" } _ _ rfl⟩

/-- Session data for the C1 scenario: order `O1` over 50 USD. -/
def c1Bag : Bag := { id := some "O1", amount := some 50, currency_code := some "USD" }

/-- Declined capture reported by the processor in the C1 scenario, whose own
amount object carries 999 USD. -/
def c1Capture : Capture :=
  { status := some "DECLINED",
    amount := some { value := some 999, currencyCode := some "USD" },
    processorResponse := some { responseCode := some "5120" } }

/-- Captured order returned by the processor in the C1 scenario. -/
def c1CapturedOrder : Order :=
  { id := some "O1", status := some "COMPLETED",
    purchaseUnits := some [{ payments := some { captures := some [c1Capture] } }] }

/-- Processor behavior for the C1 scenario: capture resolves with the
declined capture, order creation returns `O2`. -/
def c1Proc : AuthProcessor :=
  ⟨.success c1CapturedOrder, { id := some "O2", status := some "CREATED" }⟩

/-- Authorize input for the C1 scenario. -/
def c1Input : AuthorizeInput := ⟨some c1Bag, some "sess_1"⟩

/-- Replacement-order request actually issued in the C1 scenario. -/
def c1Req : CreateOrderReq :=
  { amount := some 999, currency := some "USD", sessionId := some "sess_1" }

/-- C1 counterexample: on a capture classified `DECLINED`, the replacement
order is created with the amount taken from the capture's own amount object
(999), not the original request's session amount (50), so the claim's "same
amount ... as the original request" fails. -/
theorem authorize_declined_replacement_amount_cex :
    authorizePayment c1Proc c1Input =
      .ok (⟨PSS_PENDING,
            { id := some "O2", status := some "CREATED", amount := some 50,
              currency_code := some "USD",
              error := some { code := "5120 - INSUFFICIENT_FUNDS",
                              message := "Insufficient funds. Please try again or use a different card.",
                              retryable := true, avsCode := none, cvvCode := none } }⟩,
           [ProcCall.captureOrder "O1", ProcCall.createOrder c1Req]) ∧
    c1Bag.amount = some 50 ∧ c1Req.amount = some 999 ∧ c1Req.amount ≠ c1Bag.amount :=
  ⟨rfl, rfl, rfl, by decide⟩

/-- C1 amended: when the capture call succeeds but the capture's classified
status is `DECLINED`, exactly one replacement order is created — taking its
amount and currency from the declined capture's own amount object (not the
session's values, though they normally coincide) and the correlation id from
the request context — and the result is status `PENDING` with the new order
merged into the session data and a (necessarily present) decline descriptor
attached as the `error` field. -/
theorem authorize_declined_creates_replacement (proc : AuthProcessor)
    (input : AuthorizeInput) (d : Bag) (order : Order) (cap0 capData : Option Capture)
    (hd : input.data = some d)
    (hid : truthyStr d.id = true)
    (ham : truthyNum d.amount = true)
    (hcur : truthyStr d.currency_code = true)
    (hc0 : firstCaptureChain d.purchaseUnits = .ok cap0)
    (hnot : ¬ cap0.bind Capture.status = some "COMPLETED")
    (hcap : proc.captureResult = .success order)
    (hcd : firstCaptureChain order.purchaseUnits = .ok capData)
    (hdecl : jsOrStr (capData.bind Capture.status) "DECLINED" = "DECLINED") :
    authorizePayment proc input =
      .ok (⟨PSS_PENDING,
            mergeOrderErr d proc.createdOrder
              (checkPaymentStatus "DECLINED" (capData.bind Capture.processorResponse)).error⟩,
           [ProcCall.captureOrder (d.id.getD ""),
            ProcCall.createOrder
              { amount := (capData.bind Capture.amount).bind CaptureAmount.value,
                currency := (capData.bind Capture.amount).bind CaptureAmount.currencyCode,
                sessionId := input.idempotency_key }]) ∧
    (checkPaymentStatus "DECLINED" (capData.bind Capture.processorResponse)).error ≠ none := by
  refine ⟨?_, checkPaymentStatus_declined_error _⟩
  simp only [authorizePayment, hd, hid, ham, hcur, hc0, hcap, Bool.not_true, Bool.false_or,
    Bool.or_self, Bool.or_false, if_false]
  simp only [hnot, if_false]
  simp only [authorizeCaptureSuccess, hcd]
  rw [hdecl]
  simp [checkPaymentStatus_status]

/-- Witness for C1's amended theorem, at the C1 scenario. -/
theorem authorize_declined_creates_replacement_witness :
    authorizePayment c1Proc c1Input =
      .ok (⟨PSS_PENDING,
            mergeOrderErr c1Bag c1Proc.createdOrder
              (checkPaymentStatus "DECLINED"
                ((some c1Capture).bind Capture.processorResponse)).error⟩,
           [ProcCall.captureOrder "O1", ProcCall.createOrder c1Req]) ∧
    (checkPaymentStatus "DECLINED"
        ((some c1Capture).bind Capture.processorResponse)).error ≠ none :=
  authorize_declined_creates_replacement c1Proc c1Input c1Bag c1CapturedOrder none
    (some c1Capture) rfl (by decide) (by decide) (by decide) rfl (by decide) rfl rfl rfl

/-- Session data for the C2 scenarios: order `O1` over 50 USD. -/
def c2Bag : Bag := { id := some "O1", amount := some 50, currency_code := some "USD" }

/-- Authorize input for the C2 scenarios (no idempotency key in context). -/
def c2Input : AuthorizeInput := ⟨some c2Bag, none⟩

/-- Capture-error body for the C2 counterexample: the processor attached an
embedded capture whose status is `COMPLETED`. -/
def c2ErrBody : ErrorBody :=
  { purchase_units := some
      [{ payments := some { captures := some [{ status := some "COMPLETED" }] } }] }

/-- Processor behavior for the C2 counterexample: the capture call rejects
with `c2ErrBody`; order creation returns `O2`. -/
def c2Proc : AuthProcessor := ⟨.failure c2ErrBody, { id := some "O2", status := some "CREATED" }⟩

/-- C2 counterexample: when the capture call fails but the error payload
embeds a capture whose status is `COMPLETED`, the classifier yields no
descriptor, so the `PENDING` result carries no `error` — the claim's "in
both cases ... carrying the decline descriptor" fails. -/
theorem authorize_capture_failure_no_descriptor_cex :
    authorizePayment c2Proc c2Input =
      .ok (⟨PSS_PENDING,
            { id := some "O2", status := some "CREATED", amount := some 50,
              currency_code := some "USD", error := none }⟩,
           [ProcCall.captureOrder "O1",
            ProcCall.createOrder { amount := some 50, currency := some "USD", sessionId := none }]) ∧
    failureDescriptor c2ErrBody = none :=
  ⟨rfl, rfl⟩

/-- C2 amended: when the capture call itself fails, the error payload is
parsed for an embedded capture; exactly one replacement order is created for
the session's amount/currency/correlation id and the result is status
`PENDING`; the attached `error` is the synthesized generic retryable
"payment declined" descriptor when no capture detail is embedded, and
otherwise the classifier's descriptor for the embedded capture's status
(absent when that status is `COMPLETED`). -/
theorem authorize_capture_call_failure (proc : AuthProcessor)
    (input : AuthorizeInput) (d : Bag) (errBody : ErrorBody) (cap0 : Option Capture)
    (hd : input.data = some d)
    (hid : truthyStr d.id = true)
    (ham : truthyNum d.amount = true)
    (hcur : truthyStr d.currency_code = true)
    (hc0 : firstCaptureChain d.purchaseUnits = .ok cap0)
    (hnot : ¬ cap0.bind Capture.status = some "COMPLETED")
    (hfail : proc.captureResult = .failure errBody) :
    authorizePayment proc input =
      .ok (⟨PSS_PENDING, mergeOrderErr d proc.createdOrder (failureDescriptor errBody)⟩,
           [ProcCall.captureOrder (d.id.getD ""),
            ProcCall.createOrder
              { amount := d.amount, currency := d.currency_code,
                sessionId := input.idempotency_key }]) ∧
    (errBodyCapture errBody = none → failureDescriptor errBody = some genericRetryableError) := by
  constructor
  · simp only [authorizePayment, hd, hid, ham, hcur, hc0, hfail, Bool.not_true, Bool.false_or,
      Bool.or_self, Bool.or_false, if_false]
    simp only [hnot, if_false]
    rw [authorizeCaptureFailure_eq]
    simp
  · intro h
    simp [failureDescriptor, h]

/-- Witness for C2's amended theorem: the capture call rejects with an empty
error body, so the synthesized generic retryable descriptor is attached. -/
theorem authorize_capture_call_failure_witness :
    authorizePayment ⟨.failure {}, { id := some "O3", status := some "CREATED" }⟩ c2Input =
      .ok (⟨PSS_PENDING,
            mergeOrderErr c2Bag { id := some "O3", status := some "CREATED" }
              (failureDescriptor {})⟩,
           [ProcCall.captureOrder "O1",
            ProcCall.createOrder { amount := some 50, currency := some "USD", sessionId := none }]) ∧
    (errBodyCapture {} = none → failureDescriptor {} = some genericRetryableError) :=
  authorize_capture_call_failure ⟨.failure {}, { id := some "O3", status := some "CREATED" }⟩
    c2Input c2Bag {} none rfl (by decide) (by decide) (by decide) rfl (by decide) rfl
